import Mathlib

/-!
Verification of the micromanager-agent telegram surface.

Shallow embedding of the three source files:
* the telegram chat panel (conversation reconciliation via
  `handleRealtimeMessages`, workflow-run polling via `pollWorkflowRuns`,
  submission via `handleSubmit`);
* the `POST /api/telegram/chat` route handler;
* the telegram workplan panel (`load`, `handleRoleChange`).

External calls (fetches, token verification, storage inserts, the workflow
executor) are modelled as explicit outcome parameters; the JavaScript stable
`Array.prototype.sort` is embedded as `List.insertionSort`, which is stable.
-/

namespace Micromanager

/-- Outcome of an awaited external call: a value, or a thrown exception. -/
inductive Outcome (α : Type)
  | ok (a : α)
  | thrown
deriving DecidableEq

/-! ### String primitives

JavaScript string operations embedded over the character list of the string,
so that every definition evaluates by kernel reduction. -/

/-- Whitespace stripped by JavaScript `String.prototype.trim`. -/
def isJsSpace (c : Char) : Bool :=
  c = ' ' || c = '\t' || c = '\n' || c = '\r' || c = '\x0b' || c = '\x0c'

/-- Removal of leading JavaScript whitespace from a character list. -/
def dropLeadingWs : List Char → List Char
  | [] => []
  | c :: cs => if isJsSpace c then dropLeadingWs cs else c :: cs

/-- JavaScript `String.prototype.trim`: strip leading and trailing
whitespace. -/
def jsTrim (s : String) : String :=
  ⟨(dropLeadingWs ((dropLeadingWs s.data).reverse)).reverse⟩

/-- Replacement of the first occurrence of `pat` in a character list. -/
def replaceFirstAux (pat rep : List Char) : List Char → List Char
  | [] => []
  | c :: cs =>
    if pat.isPrefixOf (c :: cs) then rep ++ (c :: cs).drop pat.length
    else c :: replaceFirstAux pat rep cs

/-- Replacement of the first occurrence of `pat` in `s` by `rep`, the
semantics of JavaScript `String.prototype.replace` with a string pattern. -/
def replaceFirst (s pat rep : String) : String :=
  ⟨replaceFirstAux pat.data rep.data s.data⟩

/-! ### Data model of the chat panel (src/unnamed/part_000) -/

/-- Message role union `"user" | "assistant" | "tool"`. -/
inductive Role
  | user
  | assistant
  | tool
deriving DecidableEq

/-- Optional metadata attached to a stored message. -/
structure MessageMetadata where
  tokensUsed : Option Nat := none
  reasoning : Option String := none
  error : Bool := false
deriving DecidableEq

/-- StoredMessage as used by the chat panel. The identity `id` is a string,
with `""` standing for an absent/undefined identity; timestamps are epoch
milliseconds. -/
structure StoredMessage where
  id : String
  userId : String
  role : Role
  content : String
  type : String
  createdAt : Nat
  updatedAt : Nat
  source : String
  metadata : Option MessageMetadata := none
deriving DecidableEq

/-- ChatMessage delivered by the realtime agent; `id = ""` models an absent
identity and `createdAt = none` models an absent timestamp. -/
structure ChatMessage where
  id : String
  role : Role
  content : String
  createdAt : Option Nat := none
deriving DecidableEq

/-- Identities of a stored-message list with the empty ones removed; this is
`prev.map((msg) => msg.id).filter(Boolean)` from `handleRealtimeMessages`. -/
def storedIds (l : List StoredMessage) : List String :=
  (l.map (fun m => m.id)).filter (fun s => !(s == ""))

/-- Identities of an incoming batch with the empty ones removed. -/
def chatIds (l : List ChatMessage) : List String :=
  (l.map (fun c => c.id)).filter (fun s => !(s == ""))

/-- Mapping of one incoming realtime message to a `StoredMessage`
(`incoming.map<StoredMessage>` inside `handleRealtimeMessages`); `now` stands
for `new Date().toISOString()` used when the message has no timestamp. -/
def mapIncoming (now : Nat) (userId : String) (message : ChatMessage) : StoredMessage :=
  let createdDate := message.createdAt.getD now
  { id := message.id
    userId := userId
    role := message.role
    content := message.content
    type := "text"
    createdAt := createdDate
    updatedAt := createdDate
    source :=
      if message.role = Role.assistant ∨ message.role = Role.tool then
        "realtime-agent"
      else
        "telegram-user" }

/-- Ordering of stored messages by ascending creation time, the comparator
`new Date(a.createdAt).getTime() - new Date(b.createdAt).getTime()`. -/
def storedCreatedLe (a b : StoredMessage) : Prop := a.createdAt ≤ b.createdAt

instance : DecidableRel storedCreatedLe := fun a b =>
  inferInstanceAs (Decidable (a.createdAt ≤ b.createdAt))

instance : IsTotal StoredMessage storedCreatedLe :=
  ⟨fun a b => Nat.le_total a.createdAt b.createdAt⟩

instance : IsTrans StoredMessage storedCreatedLe :=
  ⟨fun _ _ _ h h' => Nat.le_trans h h'⟩

/-- Dedup predicate `(msg) => !msg.id || !existingIds.has(msg.id)`: a mapped
message is kept when it has no identity or its identity is not yet present. -/
def dedupKeep (existingIds : List String) (m : StoredMessage) : Bool :=
  m.id == "" || !(existingIds.contains m.id)

/-- Conversation merge of `handleRealtimeMessages`: an empty batch leaves the
list untouched; otherwise incoming messages are mapped to stored form, those
whose non-empty identity is already present are dropped, and if anything
remains the concatenation is sorted ascending by creation time (stable). -/
def handleRealtimeMessages (now : Nat) (userId : String)
    (prev : List StoredMessage) (incoming : List ChatMessage) :
    List StoredMessage :=
  if incoming = [] then prev
  else
    let existingIds := storedIds prev
    let mapped := incoming.map (mapIncoming now userId)
    let deduped := mapped.filter (dedupKeep existingIds)
    if deduped = [] then prev
    else List.insertionSort storedCreatedLe (prev ++ deduped)

/-! ### The POST /api/telegram/chat route handler -/

/-- Parsed request body of the chat route; `none` models an absent field. -/
structure ChatBody where
  message : Option String
  userId : Option String
deriving DecidableEq

/-- JavaScript falsiness of an optional string field: absent or empty. -/
def isFalsyStr : Option String → Bool
  | none => true
  | some s => s == ""

/-- Result shape of `runWorkflow` as read by the route handler. -/
structure WorkflowResult where
  output_text : String
  error : Bool := false
  errorMessage : Option String := none
deriving DecidableEq

/-- Outcomes of the external calls awaited by the route handler, in the order
the handler makes them. `serverVerify` is `verifyTelegramServerToken` (may
throw or return a boolean); `jwtVerifyOk` is false when `jwtVerify` throws;
`insertUserOk`/`insertAssistantOk` are false when the respective
`insertMessage` call throws (in which case nothing is persisted by it). -/
structure ChatRouteCalls where
  serverVerify : Outcome Bool
  jwtVerifyOk : Bool
  body : Outcome ChatBody
  getUser : Outcome (Option String)
  insertUserOk : Bool
  workflow : Outcome WorkflowResult
  insertAssistantOk : Bool
deriving DecidableEq

/-- Record of one successful `insertMessage` call. -/
structure InsertedMessage where
  userId : String
  role : Role
  content : String
  type : String
  source : String
  metadataError : Bool := false
deriving DecidableEq

/-- Response of the route handler: HTTP status plus the messages persisted
during the execution (in call order). -/
structure RouteResponse where
  status : Nat
  inserted : List InsertedMessage
deriving DecidableEq

/-- The chat-route `POST` handler. Authentication tries the server token and
falls back to the user JWT; thrown exceptions anywhere after authentication
surface as status 500, with every message persisted before the throw kept
(no rollback). -/
def POST (authHeader : Option String) (calls : ChatRouteCalls) : RouteResponse :=
  match authHeader.map (fun h => replaceFirst h "Bearer " "") with
  | none => ⟨401, []⟩
  | some token =>
    if token == "" then ⟨401, []⟩
    else
      let isValid : Bool :=
        match calls.serverVerify with
        | Outcome.ok true => true
        | _ => calls.jwtVerifyOk
      if !isValid then ⟨401, []⟩
      else
        match calls.body with
        | Outcome.thrown => ⟨500, []⟩
        | Outcome.ok body =>
          if isFalsyStr body.message || isFalsyStr body.userId then ⟨400, []⟩
          else
            match calls.getUser with
            | Outcome.thrown => ⟨500, []⟩
            | Outcome.ok _user =>
              if !calls.insertUserOk then ⟨500, []⟩
              else
                let userMsg : InsertedMessage :=
                  { userId := body.userId.getD ""
                    role := Role.user
                    content := body.message.getD ""
                    type := "text"
                    source := "telegram-user" }
                match calls.workflow with
                | Outcome.thrown => ⟨500, [userMsg]⟩
                | Outcome.ok wr =>
                  if !calls.insertAssistantOk then ⟨500, [userMsg]⟩
                  else
                    ⟨200, [userMsg,
                      { userId := body.userId.getD ""
                        role := Role.assistant
                        content := wr.output_text
                        type := "text"
                        source := "micromanager"
                        metadataError := wr.error }]⟩

/-! ### The telegram workplan panel -/

/-- Calendar event attached to a workplan entry. -/
structure WorkplanEvent where
  id : String
  title : String := ""
  start : Option String := none
  end_ : Option String := none
  location : Option String := none
  description : Option String := none
deriving DecidableEq

/-- Entry of the workplan list. -/
structure WorkplanEntry where
  event : WorkplanEvent
  status : String := "ready"
  steps : List String := []
  lastGeneratedAt : Option String := none
  role : Option String := none
  error : Option String := none
deriving DecidableEq

/-- Modelled from the spec: `normaliseRole` (imported by the panel from the
workplan-panel module, which is not under src/) trims the role text and
collapses it to absent/null when empty after the trim. -/
def normaliseRole (value : String) : Option String :=
  let t := jsTrim value
  if t = "" then none else some t

/-- Modelled from the spec: `getMockWorkplans` (imported by the panel from the
workplan-panel module, which is not under src/) returns a fixed, non-empty
local mock set of workplan entries. -/
def getMockWorkplans : List WorkplanEntry :=
  [{ event := { id := "mock-1", title := "Team sync" }
     status := "ready"
     steps := ["Review the agenda", "Collect updates"]
     role := some "Organiser" },
   { event := { id := "mock-2", title := "Client call" }
     status := "ready"
     steps := ["Prepare notes"]
     role := some "Host" }]

/-- Lookup in a JavaScript-object-like record keyed by strings. -/
def recLookup : List (String × String) → String → Option String
  | [], _ => none
  | (k', v) :: rest, k => if k' = k then some v else recLookup rest k

/-- Key assignment in a JavaScript-object-like record: update the binding in
place when the key exists, append it otherwise. -/
def recInsert : List (String × String) → String → String → List (String × String)
  | [], k, v => [(k, v)]
  | (k', v') :: rest, k, v =>
    if k' = k then (k, v) :: rest else (k', v') :: recInsert rest k v

/-- State of `TelegramWorkPlanPanel`; `roleDrafts` is the
`Record<string, string>` of per-event role drafts. -/
structure WorkplanPanelState where
  workplans : List WorkplanEntry
  loadingList : Bool
  regenerating : Bool
  selectedId : Option String
  error : Option String
  roleDrafts : List (String × String)
deriving DecidableEq

/-- Draft edit `handleRoleChange`: writes the raw value into the draft record
under the event identity, and rewrites the matching workplan entry's role to
the normalised value. -/
def handleRoleChange (eventId value : String) (s : WorkplanPanelState) :
    WorkplanPanelState :=
  { s with
    roleDrafts := recInsert s.roleDrafts eventId value
    workplans := s.workplans.map (fun item =>
      if item.event.id == eventId then { item with role := normaliseRole value }
      else item) }

/-- Draft value seeded for an entry: `item.role?.trim() ?? ""`. -/
def seedValue (item : WorkplanEntry) : String :=
  (item.role.map (fun r => jsTrim r)).getD ""

/-- Draft record built from the mock set by the empty/failure branches of
`load` (`mocks.reduce(...)` over a fresh object). -/
def mockSeededDrafts (mocks : List WorkplanEntry) : List (String × String) :=
  mocks.foldl (fun acc item => recInsert acc item.event.id (seedValue item)) []

/-- Loop body of the draft merge: seed a draft for the entry's event identity
when it is not yet bound (`if typeof next[item.event.id] === "undefined"`). -/
def seedStep (next : List (String × String)) (item : WorkplanEntry) :
    List (String × String) :=
  match recLookup next item.event.id with
  | none => recInsert next item.event.id (seedValue item)
  | some _ => next

/-- Draft merge of the non-empty branch of `load`: seed a draft for every
event identity not yet bound, leaving existing bindings untouched. -/
def seedRoleDrafts (prev : List (String × String)) (items : List WorkplanEntry) :
    List (String × String) :=
  items.foldl seedStep prev

/-- Outcome of the workplan fetch: a parsed (already null-filtered) item list,
or a failure (thrown fetch or non-ok status). -/
inductive WorkplanFetch
  | ok (items : List WorkplanEntry)
  | failed
deriving DecidableEq

/-- The `load` effect of the workplan panel applied to the panel state, as a
function of the fetch outcome: zero items or a failure substitute the mock
set (replacing the draft record wholesale), a non-empty result replaces the
list, merges drafts and selects the first item; `loadingList` ends false. -/
def load (s : WorkplanPanelState) (fetch : WorkplanFetch) : WorkplanPanelState :=
  let s0 := { s with loadingList := true, error := none }
  let s1 :=
    match fetch with
    | WorkplanFetch.ok items =>
      if items = [] then
        let mocks := getMockWorkplans
        { s0 with
          workplans := mocks
          roleDrafts := mockSeededDrafts mocks
          selectedId := mocks.head?.map (fun m : WorkplanEntry => m.event.id) }
      else
        { s0 with
          workplans := items
          roleDrafts := seedRoleDrafts s0.roleDrafts items
          selectedId := items.head?.map (fun m : WorkplanEntry => m.event.id) }
    | WorkplanFetch.failed =>
      let mocks := getMockWorkplans
      { s0 with
        workplans := mocks
        roleDrafts := mockSeededDrafts mocks
        selectedId := mocks.head?.map (fun m : WorkplanEntry => m.event.id)
        error := some "Failed to load upcoming workplans. Showing examples." }
  { s1 with loadingList := false }

/-! ### Workflow-run polling (ToolCallTracker) -/

/-- Tool-call record displayed by the chat panel; `arguments` and `result`
are opaque JSON payloads, timestamps are epoch milliseconds. -/
structure ToolCall where
  toolName : String
  displayTitle : String
  displayDescription : Option String := none
  arguments : List (String × String) := []
  result : Option String := none
  status : String
  error : Option String := none
  duration : Option Nat := none
  createdAt : Nat
  updatedAt : Nat
deriving DecidableEq

/-- Workflow run as read by the poller: an optional mapping of tool-call keys
to records. -/
structure WorkflowRun where
  toolCalls : Option (List (String × ToolCall))
deriving DecidableEq

/-- Body of `GET /api/user/workflow-runs`. -/
structure WorkflowRunsData where
  current : Option WorkflowRun
  previous : Option WorkflowRun
deriving DecidableEq

/-- Ordering of tool calls by ascending creation time. -/
def toolCallLe (a b : ToolCall) : Prop := a.createdAt ≤ b.createdAt

instance : DecidableRel toolCallLe := fun a b =>
  inferInstanceAs (Decidable (a.createdAt ≤ b.createdAt))

instance : IsTotal ToolCall toolCallLe :=
  ⟨fun a b => Nat.le_total a.createdAt b.createdAt⟩

instance : IsTrans ToolCall toolCallLe :=
  ⟨fun _ _ _ h h' => Nat.le_trans h h'⟩

/-- One tick of `pollWorkflowRuns`, applied to the displayed history:
`response = none` models a thrown fetch or a non-ok status (history kept);
otherwise the current run is selected while a request is in flight and the
previous run when idle, and if the selected run carries a tool-call mapping
the history is replaced by the mapping's values, field-copied and sorted
ascending by creation time. -/
def pollWorkflowRuns (isLoading : Bool) (response : Option WorkflowRunsData)
    (history : List ToolCall) : List ToolCall :=
  match response with
  | none => history
  | some data =>
    let workflowToDisplay := if isLoading then data.current else data.previous
    match workflowToDisplay with
    | none => history
    | some run =>
      match run.toolCalls with
      | none => history
      | some tc =>
        let toolCallsArray := (tc.map (fun p => p.2)).map (fun call =>
          { toolName := call.toolName
            displayTitle := call.displayTitle
            displayDescription := call.displayDescription
            arguments := call.arguments
            result := call.result
            status := call.status
            error := call.error
            duration := call.duration
            createdAt := call.createdAt
            updatedAt := call.updatedAt : ToolCall })
        List.insertionSort toolCallLe toolCallsArray

/-! ### Chat submission (handleSubmit) -/

/-- Body of a successful `POST /api/telegram/chat` as read by the panel. -/
structure ChatApiData where
  response : String
  tokensUsed : Option Nat := none
  reasoning : Option String := none
  error : Bool := false
deriving DecidableEq

/-- Outcomes of the network calls `handleSubmit` can make: the chat POST
(`thrown` covers a network error and a non-ok status, which the code turns
into a throw), the usage POST (throws when false) and the profile GET
(`ok none` is a non-ok status, which is merely skipped). -/
structure SubmitCalls where
  chat : Outcome ChatApiData
  usageOk : Bool
  profile : Outcome (Option String)
deriving DecidableEq

/-- State of `TelegramChatPanel` touched by `handleSubmit`; the profile
payload is kept opaque. -/
structure ChatPanelState where
  messages : List StoredMessage
  input : String
  isLoading : Bool
  error : Option String
  profile : Option String
  toolCallHistory : List ToolCall
  showWorkPlan : Bool
deriving DecidableEq

/-- Network request issued by `handleSubmit`. -/
inductive RequestEvent
  | chatPost
  | usagePost
  | profileGet
deriving DecidableEq

/-- The submit handler: a blank (after trim) input or an in-flight request is
a guard-rejected no-op; otherwise the user message is appended optimistically,
the chat POST is made, and on success the assistant reply is appended with
optional metadata, followed by usage/profile refreshes when tokens were
reported. Any throw sets the error banner; `isLoading` ends false. Returns
the new state and the requests issued. -/
def handleSubmit (now : Nat) (userId : String) (calls : SubmitCalls)
    (s : ChatPanelState) : ChatPanelState × List RequestEvent :=
  if jsTrim s.input == "" || s.isLoading then (s, [])
  else
    let userMessage : StoredMessage :=
      { id := toString now
        content := jsTrim s.input
        role := Role.user
        createdAt := now
        updatedAt := now
        type := "text"
        userId := userId
        source := "telegram-user" }
    let s1 := { s with
      showWorkPlan := false
      messages := s.messages ++ [userMessage]
      input := ""
      isLoading := true
      error := none
      toolCallHistory := [] }
    match calls.chat with
    | Outcome.thrown =>
      ({ s1 with error := some "Failed to send message. Please try again."
                 isLoading := false }, [RequestEvent.chatPost])
    | Outcome.ok data =>
      let metadata : MessageMetadata :=
        { tokensUsed := data.tokensUsed
          reasoning :=
            match data.reasoning with
            | some r => if (jsTrim r).length > 0 then some (jsTrim r) else none
            | none => none
          error := data.error }
      let hasMeta : Bool :=
        metadata.tokensUsed.isSome || metadata.reasoning.isSome || metadata.error
      let assistantMessage : StoredMessage :=
        { id := toString now ++ "-assistant"
          content := data.response
          role := Role.assistant
          createdAt := now
          updatedAt := now
          type := "text"
          userId := userId
          source := "micromanager"
          metadata := if hasMeta then some metadata else none }
      let s2 := { s1 with messages := s1.messages ++ [assistantMessage] }
      match data.tokensUsed with
      | none => ({ s2 with isLoading := false }, [RequestEvent.chatPost])
      | some n =>
        if n = 0 then ({ s2 with isLoading := false }, [RequestEvent.chatPost])
        else if !calls.usageOk then
          ({ s2 with error := some "Failed to send message. Please try again."
                     isLoading := false },
           [RequestEvent.chatPost, RequestEvent.usagePost])
        else
          match calls.profile with
          | Outcome.thrown =>
            ({ s2 with error := some "Failed to send message. Please try again."
                       isLoading := false },
             [RequestEvent.chatPost, RequestEvent.usagePost, RequestEvent.profileGet])
          | Outcome.ok none =>
            ({ s2 with isLoading := false },
             [RequestEvent.chatPost, RequestEvent.usagePost, RequestEvent.profileGet])
          | Outcome.ok (some p) =>
            ({ s2 with profile := some p, isLoading := false },
             [RequestEvent.chatPost, RequestEvent.usagePost, RequestEvent.profileGet])

/-! ### Concrete inputs used by witnesses and counterexamples -/

/-- Call outcomes for a request whose token verifies neither way. -/
def c2Calls : ChatRouteCalls :=
  { serverVerify := Outcome.ok false
    jwtVerifyOk := false
    body := Outcome.ok ⟨some "hi", some "u1"⟩
    getUser := Outcome.ok none
    insertUserOk := true
    workflow := Outcome.ok ⟨"ok", false, none⟩
    insertAssistantOk := true }

/-- Call outcomes for an authenticated request whose body has no userId. -/
def c7Calls : ChatRouteCalls :=
  { serverVerify := Outcome.ok true
    jwtVerifyOk := false
    body := Outcome.ok ⟨some "hello", none⟩
    getUser := Outcome.ok none
    insertUserOk := true
    workflow := Outcome.ok ⟨"ok", false, none⟩
    insertAssistantOk := true }

/-- Call outcomes for an authenticated, valid request whose workflow call
throws after the user message was persisted. -/
def c5Calls : ChatRouteCalls :=
  { serverVerify := Outcome.ok true
    jwtVerifyOk := false
    body := Outcome.ok ⟨some "hi", some "u1"⟩
    getUser := Outcome.ok none
    insertUserOk := true
    workflow := Outcome.thrown
    insertAssistantOk := true }

/-- Incoming realtime message used twice in one batch. -/
def c1Dup : ChatMessage :=
  { id := "x", role := Role.user, content := "hi", createdAt := some 5 }

/-- Stored message already present in the conversation. -/
def c1Prev : StoredMessage :=
  { id := "a", userId := "u", role := Role.user, content := "one", type := "text"
    createdAt := 1, updatedAt := 1, source := "telegram-user" }

/-- Incoming realtime message with a fresh identity. -/
def c1New : ChatMessage :=
  { id := "b", role := Role.assistant, content := "two", createdAt := some 2 }

/-- Stored message whose identity the re-merged batch repeats. -/
def c6Stored : StoredMessage :=
  { id := "m1", userId := "u", role := Role.user, content := "hi", type := "text"
    createdAt := 10, updatedAt := 10, source := "telegram-user" }

/-- Incoming realtime message carrying an identity already present. -/
def c6Incoming : ChatMessage :=
  { id := "m1", role := Role.assistant, content := "dup", createdAt := some 20 }

/-- Workplan panel state with one entry whose stored role is "Lead". -/
def wpC3State : WorkplanPanelState :=
  { workplans := [{ event := { id := "e1", title := "Standup" }
                    status := "ready", steps := [], role := some "Lead" }]
    loadingList := false
    regenerating := false
    selectedId := some "e1"
    error := none
    roleDrafts := [("e1", "Lead")] }

/-- Workplan panel state holding an in-progress draft for the first mock
event identity, about to receive an empty fetch result. -/
def wpC4State : WorkplanPanelState :=
  { workplans := []
    loadingList := true
    regenerating := false
    selectedId := none
    error := none
    roleDrafts := [("mock-1", "my manual edit")] }

/-- Fetched workplan entry whose identity already has a draft. -/
def wpC4Item1 : WorkplanEntry :=
  { event := { id := "e1" }, status := "ready", steps := [], role := some " Lead " }

/-- Fetched workplan entry whose identity has no draft yet. -/
def wpC4Item2 : WorkplanEntry :=
  { event := { id := "e2" }, status := "ready", steps := [], role := none }

/-- Workplan panel state holding an in-progress draft for `e1`. -/
def wpC4PrevState : WorkplanPanelState :=
  { workplans := []
    loadingList := true
    regenerating := false
    selectedId := none
    error := none
    roleDrafts := [("e1", "edited")] }

/-- Later tool call of the polled run. -/
def c9Call1 : ToolCall :=
  { toolName := "get_user_context", displayTitle := "Read context"
    status := "success", createdAt := 30, updatedAt := 31 }

/-- Earlier tool call of the polled run. -/
def c9Call2 : ToolCall :=
  { toolName := "list-events", displayTitle := "List events"
    status := "pending", createdAt := 10, updatedAt := 11 }

/-- Run carrying a tool-call mapping. -/
def c9Run : WorkflowRun :=
  { toolCalls := some [("k1", c9Call1), ("k2", c9Call2)] }

/-- Workflow-runs response whose current run carries a tool-call mapping. -/
def c9Data : WorkflowRunsData :=
  { current := some c9Run, previous := none }

/-- Previously displayed tool call that must not survive the replacement. -/
def c9Old : ToolCall :=
  { toolName := "stale", displayTitle := "Stale", status := "error"
    createdAt := 1, updatedAt := 1 }

/-- Chat panel state whose input is blank after trimming. -/
def c10State : ChatPanelState :=
  { messages := []
    input := "   "
    isLoading := false
    error := none
    profile := none
    toolCallHistory := []
    showWorkPlan := false }

/-- Call outcomes for a submit attempt (never reached under the guard). -/
def c10Calls : SubmitCalls :=
  { chat := Outcome.ok { response := "hello" }
    usageOk := true
    profile := Outcome.ok none }

/-! ### Claims about the route handler -/

/-- C2: a request to POST /api/telegram/chat whose bearer token fails both the
server-token verification and the user-JWT verification, or whose
Authorization header is absent, gets status 401 and persists no message. -/
theorem POST_unverified_token_rejected (authHeader : Option String)
    (calls : ChatRouteCalls)
    (h : authHeader = none ∨
      (calls.serverVerify ≠ Outcome.ok true ∧ calls.jwtVerifyOk = false)) :
    (POST authHeader calls).status = 401 ∧ (POST authHeader calls).inserted = [] := by
  obtain ⟨sv, jv, bd, gu, iu, wf, ia⟩ := calls
  rcases h with h | ⟨hs, hj⟩
  · subst h
    simp [POST]
  · simp only at hs hj
    subst hj
    cases authHeader with
    | none => simp [POST]
    | some hdr =>
      by_cases ht : replaceFirst hdr "Bearer " "" = ""
      · simp [POST, ht]
      · cases sv with
        | thrown => simp [POST, ht]
        | ok b =>
          cases b with
          | true => exact absurd rfl hs
          | false => simp [POST, ht]

/-- Witness for C2 at a concrete request whose token verifies neither way. -/
theorem POST_unverified_token_rejected_witness :
    (POST (some "Bearer bad") c2Calls).status = 401 ∧
      (POST (some "Bearer bad") c2Calls).inserted = [] :=
  POST_unverified_token_rejected (some "Bearer bad") c2Calls
    (Or.inr ⟨by decide, rfl⟩)

/-- C7: an authenticated request whose body misses the message or the userId
field (absent or empty) gets status 400 and persists nothing. -/
theorem POST_missing_fields_rejected (hdr : String) (calls : ChatRouteCalls)
    (b : ChatBody)
    (htok : replaceFirst hdr "Bearer " "" ≠ "")
    (hauth : calls.serverVerify = Outcome.ok true ∨ calls.jwtVerifyOk = true)
    (hbody : calls.body = Outcome.ok b)
    (hmiss : isFalsyStr b.message = true ∨ isFalsyStr b.userId = true) :
    (POST (some hdr) calls).status = 400 ∧ (POST (some hdr) calls).inserted = [] := by
  obtain ⟨sv, jv, bd, gu, iu, wf, ia⟩ := calls
  simp only at hauth hbody
  subst hbody
  have hm : (isFalsyStr b.message || isFalsyStr b.userId) = true := by
    rcases hmiss with h | h <;> simp [h]
  rcases hauth with h | h
  · subst h
    simp [POST, htok, hm]
  · subst h
    cases sv with
    | thrown => simp [POST, htok, hm]
    | ok b' => cases b' <;> simp [POST, htok, hm]

/-- Witness for C7 at a concrete authenticated request with no userId. -/
theorem POST_missing_fields_rejected_witness :
    (POST (some "Bearer tok") c7Calls).status = 400 ∧
      (POST (some "Bearer tok") c7Calls).inserted = [] :=
  POST_missing_fields_rejected "Bearer tok" c7Calls ⟨some "hello", none⟩
    (by decide) (Or.inl rfl) rfl (Or.inr rfl)

/-- C5: when the inbound user message has been persisted and the workflow
invocation or the assistant-message persistence throws, the handler returns
status 500 and the user message stays persisted (no rollback). -/
theorem POST_keeps_user_message_on_late_failure (hdr : String)
    (calls : ChatRouteCalls) (b : ChatBody) (u : Option String)
    (htok : replaceFirst hdr "Bearer " "" ≠ "")
    (hauth : calls.serverVerify = Outcome.ok true ∨ calls.jwtVerifyOk = true)
    (hbody : calls.body = Outcome.ok b)
    (hmsg : isFalsyStr b.message = false)
    (huid : isFalsyStr b.userId = false)
    (hgu : calls.getUser = Outcome.ok u)
    (hiu : calls.insertUserOk = true)
    (hfail : calls.workflow = Outcome.thrown ∨ calls.insertAssistantOk = false) :
    (POST (some hdr) calls).status = 500 ∧
      (POST (some hdr) calls).inserted =
        [{ userId := b.userId.getD ""
           role := Role.user
           content := b.message.getD ""
           type := "text"
           source := "telegram-user" }] := by
  obtain ⟨sv, jv, bd, gu, iu, wf, ia⟩ := calls
  simp only at hauth hbody hgu hiu hfail
  subst hbody
  subst hgu
  subst hiu
  have step : ∀ hwf : Outcome WorkflowResult, hwf = Outcome.thrown ∨ ia = false →
      ∀ hsv : Outcome Bool, hsv = Outcome.ok true ∨ jv = true →
      (POST (some hdr) ⟨hsv, jv, Outcome.ok b, Outcome.ok u, true, hwf, ia⟩).status = 500 ∧
      (POST (some hdr) ⟨hsv, jv, Outcome.ok b, Outcome.ok u, true, hwf, ia⟩).inserted =
        [{ userId := b.userId.getD ""
           role := Role.user
           content := b.message.getD ""
           type := "text"
           source := "telegram-user" }] := by
    intro hwf hf hsv ha
    rcases ha with ha | ha
    · subst ha
      rcases hf with hf | hf
      · subst hf; simp [POST, htok, hmsg, huid]
      · subst hf
        cases hwf with
        | thrown => simp [POST, htok, hmsg, huid]
        | ok wr => simp [POST, htok, hmsg, huid]
    · subst ha
      cases hsv with
      | thrown =>
        rcases hf with hf | hf
        · subst hf; simp [POST, htok, hmsg, huid]
        · subst hf
          cases hwf with
          | thrown => simp [POST, htok, hmsg, huid]
          | ok wr => simp [POST, htok, hmsg, huid]
      | ok b' =>
        cases b' <;>
        · rcases hf with hf | hf
          · subst hf; simp [POST, htok, hmsg, huid]
          · subst hf
            cases hwf with
            | thrown => simp [POST, htok, hmsg, huid]
            | ok wr => simp [POST, htok, hmsg, huid]
  exact step wf hfail sv hauth

/-- Witness for C5: concrete request whose workflow call throws after the
user message was persisted. -/
theorem POST_keeps_user_message_on_late_failure_witness :
    (POST (some "Bearer tok") c5Calls).status = 500 ∧
      (POST (some "Bearer tok") c5Calls).inserted =
        [{ userId := "u1"
           role := Role.user
           content := "hi"
           type := "text"
           source := "telegram-user" }] :=
  POST_keeps_user_message_on_late_failure "Bearer tok" c5Calls
    ⟨some "hi", some "u1"⟩ none (by decide) (Or.inl rfl) rfl rfl rfl rfl rfl
    (Or.inl rfl)

/-! ### Record lemmas for the draft mapping -/

/-- Looking up the key just assigned returns the assigned value. -/
theorem recLookup_recInsert_self (m : List (String × String)) (k v : String) :
    recLookup (recInsert m k v) k = some v := by
  induction m with
  | nil => simp [recInsert, recLookup]
  | cons p rest ih =>
    obtain ⟨k', v'⟩ := p
    by_cases h : k' = k
    · subst h
      simp [recInsert, recLookup]
    · simp [recInsert, recLookup, h, ih]

/-- Assignment under one key leaves every other key's binding unchanged. -/
theorem recLookup_recInsert_ne (m : List (String × String)) (k v k' : String)
    (h : k' ≠ k) : recLookup (recInsert m k v) k' = recLookup m k' := by
  induction m with
  | nil => simp [recInsert, recLookup, Ne.symm h]
  | cons p rest ih =>
    obtain ⟨k'', v''⟩ := p
    by_cases h2 : k'' = k
    · subst h2
      simp [recInsert, recLookup, Ne.symm h]
    · by_cases h3 : k'' = k'
      · subst h3
        simp [recInsert, recLookup, h2]
      · simp [recInsert, recLookup, h2, h3, ih]

/-- The seeding loop body keeps every existing draft binding. -/
theorem seedStep_preserves (next : List (String × String)) (item : WorkplanEntry)
    (k d : String) (h : recLookup next k = some d) :
    recLookup (seedStep next item) k = some d := by
  unfold seedStep
  cases hl : recLookup next item.event.id with
  | none =>
    have hne : k ≠ item.event.id := by
      intro he
      rw [he, hl] at h
      exact Option.noConfusion h
    rw [recLookup_recInsert_ne _ _ _ _ hne]
    exact h
  | some v => exact h

/-- The draft merge keeps every existing draft binding. -/
theorem seedRoleDrafts_preserves (items : List WorkplanEntry)
    (prev : List (String × String)) (k d : String)
    (h : recLookup prev k = some d) :
    recLookup (seedRoleDrafts prev items) k = some d := by
  induction items generalizing prev with
  | nil => simpa [seedRoleDrafts] using h
  | cons item rest ih =>
    have hc : seedRoleDrafts prev (item :: rest) =
        seedRoleDrafts (seedStep prev item) rest := rfl
    rw [hc]
    exact ih _ (seedStep_preserves prev item k d h)

/-- The draft merge seeds an unbound key from the first fetched entry with
that event identity (role trimmed, or empty), and leaves it unbound when no
fetched entry has that identity. -/
theorem seedRoleDrafts_new (items : List WorkplanEntry)
    (prev : List (String × String)) (k : String)
    (h : recLookup prev k = none) :
    recLookup (seedRoleDrafts prev items) k =
      (items.find? (fun it => it.event.id == k)).map seedValue := by
  induction items generalizing prev with
  | nil => simpa [seedRoleDrafts] using h
  | cons item rest ih =>
    have hc : seedRoleDrafts prev (item :: rest) =
        seedRoleDrafts (seedStep prev item) rest := rfl
    rw [hc]
    by_cases hik : item.event.id = k
    · subst hik
      have hstep : seedStep prev item =
          recInsert prev item.event.id (seedValue item) := by
        simp [seedStep, h]
      rw [hstep]
      rw [seedRoleDrafts_preserves rest _ _ _ (recLookup_recInsert_self prev _ _)]
      simp [List.find?_cons]
    · cases hl : recLookup prev item.event.id with
      | none =>
        have hstep : seedStep prev item =
            recInsert prev item.event.id (seedValue item) := by
          simp [seedStep, hl]
        have h' : recLookup (recInsert prev item.event.id (seedValue item)) k = none := by
          rw [recLookup_recInsert_ne _ _ _ _ (fun he => hik he.symm)]
          exact h
        rw [hstep, ih _ h']
        simp [List.find?_cons, hik]
      | some v =>
        have hstep : seedStep prev item = prev := by
          simp [seedStep, hl]
        rw [hstep, ih _ h]
        simp [List.find?_cons, hik]

/-! ### Claims about the workplan panel -/

/-- C8: when the workplan fetch resolves with zero entries, the displayed set
is the fixed mock set and the selected identity is the first mock entry's
event identity. -/
theorem load_empty_fetch_shows_mocks (s : WorkplanPanelState) :
    (load s (WorkplanFetch.ok [])).workplans = getMockWorkplans ∧
    (load s (WorkplanFetch.ok [])).selectedId =
      getMockWorkplans.head?.map (fun m : WorkplanEntry => m.event.id) :=
  ⟨rfl, rfl⟩

/-- C3 fails as stated: editing the role draft does not leave the entry's
role field unchanged — `handleRoleChange` rewrites the matching entry's role
to the normalised draft value. -/
theorem handleRoleChange_counterexample :
    ¬ ((handleRoleChange "e1" "Chair" wpC3State).workplans.map
        (fun i => i.role) =
       wpC3State.workplans.map (fun i => i.role)) := by
  decide

/-- C3 (amended): `handleRoleChange` writes the draft mapping under the
edited event identity and rewrites the matching entry's role to the
normalised draft value; every other draft binding, every other entry, and
the rest of the panel state are unchanged (the role commits to the server
only through a regeneration, which this operation does not perform). -/
theorem handleRoleChange_frame (eventId value : String) (s : WorkplanPanelState) :
    recLookup (handleRoleChange eventId value s).roleDrafts eventId = some value ∧
    (∀ k, k ≠ eventId →
      recLookup (handleRoleChange eventId value s).roleDrafts k =
        recLookup s.roleDrafts k) ∧
    (∀ (i : Nat) (item : WorkplanEntry),
      s.workplans[i]? = some item → item.event.id ≠ eventId →
      (handleRoleChange eventId value s).workplans[i]? = some item) ∧
    (∀ (i : Nat) (item : WorkplanEntry),
      s.workplans[i]? = some item → item.event.id = eventId →
      (handleRoleChange eventId value s).workplans[i]? =
        some { item with role := normaliseRole value }) ∧
    (handleRoleChange eventId value s).selectedId = s.selectedId ∧
    (handleRoleChange eventId value s).error = s.error ∧
    (handleRoleChange eventId value s).loadingList = s.loadingList ∧
    (handleRoleChange eventId value s).regenerating = s.regenerating := by
  refine ⟨recLookup_recInsert_self _ _ _,
    fun k hk => recLookup_recInsert_ne _ _ _ _ hk,
    fun i item hi hne => ?_, fun i item hi heq => ?_, rfl, rfl, rfl, rfl⟩
  · show (s.workplans.map _)[i]? = some item
    rw [List.getElem?_map, hi]
    simp [hne]
  · show (s.workplans.map _)[i]? = some _
    rw [List.getElem?_map, hi]
    simp [heq]

/-- Witness for C3's amended frame property at a concrete edit. -/
theorem handleRoleChange_frame_witness :
    recLookup (handleRoleChange "e1" "Chair" wpC3State).roleDrafts "e1" =
      some "Chair" ∧
    (handleRoleChange "e1" "Chair" wpC3State).workplans[0]? =
      some { event := { id := "e1", title := "Standup" }
             status := "ready", steps := [], role := normaliseRole "Chair" } :=
  ⟨(handleRoleChange_frame "e1" "Chair" wpC3State).1,
   (handleRoleChange_frame "e1" "Chair" wpC3State).2.2.2.1 0
     { event := { id := "e1", title := "Standup" }
       status := "ready", steps := [], role := some "Lead" } rfl rfl⟩

/-- C4 fails as stated: the arrival of an empty fetch result replaces the
draft mapping wholesale with drafts seeded from the mock set, overwriting the
draft already present for the first mock identity. -/
theorem load_overwrites_draft_counterexample :
    ¬ (recLookup ((load wpC4State (WorkplanFetch.ok [])).roleDrafts) "mock-1" =
        some "my manual edit") := by
  decide

/-- C4 (amended): on a successful NON-EMPTY fetch, draft seeding never
overwrites a draft for an event identity already present — known identities
keep their draft text, and an identity not yet in the mapping is seeded from
the first fetched entry with that identity (stored role trimmed, or the empty
string), staying absent when no fetched entry has it. On an empty fetch or a
fetch failure the mapping is instead replaced wholesale by mock-seeded
drafts. -/
theorem load_nonempty_preserves_drafts (s : WorkplanPanelState)
    (items : List WorkplanEntry) (hne : items ≠ []) :
    (∀ k d, recLookup s.roleDrafts k = some d →
      recLookup ((load s (WorkplanFetch.ok items)).roleDrafts) k = some d) ∧
    (∀ k, recLookup s.roleDrafts k = none →
      recLookup ((load s (WorkplanFetch.ok items)).roleDrafts) k =
        (items.find? (fun it => it.event.id == k)).map seedValue) := by
  have hl : (load s (WorkplanFetch.ok items)).roleDrafts =
      seedRoleDrafts s.roleDrafts items := by
    simp [load, hne]
  rw [hl]
  exact ⟨fun k d h => seedRoleDrafts_preserves items _ k d h,
    fun k h => seedRoleDrafts_new items _ k h⟩

/-- Witness for C4's amended property: the existing draft for `e1` survives a
non-empty fetch and `e2` is seeded from the fetched entry. -/
theorem load_nonempty_preserves_drafts_witness :
    recLookup ((load wpC4PrevState
        (WorkplanFetch.ok [wpC4Item1, wpC4Item2])).roleDrafts) "e1" =
      some "edited" ∧
    recLookup ((load wpC4PrevState
        (WorkplanFetch.ok [wpC4Item1, wpC4Item2])).roleDrafts) "e2" =
      (([wpC4Item1, wpC4Item2].find? (fun it => it.event.id == "e2")).map
        seedValue) :=
  ⟨(load_nonempty_preserves_drafts wpC4PrevState [wpC4Item1, wpC4Item2]
      (by decide)).1 "e1" "edited" rfl,
   (load_nonempty_preserves_drafts wpC4PrevState [wpC4Item1, wpC4Item2]
      (by decide)).2 "e2" rfl⟩

/-! ### Claims about the conversation merge -/

/-- Identities of non-empty-id messages distribute over append. -/
theorem storedIds_append (a b : List StoredMessage) :
    storedIds (a ++ b) = storedIds a ++ storedIds b := by
  simp [storedIds]

/-- Sublists have sublist non-empty identity lists. -/
theorem storedIds_sublist {a b : List StoredMessage} (h : a.Sublist b) :
    (storedIds a).Sublist (storedIds b) :=
  List.Sublist.filter _ (h.map _)

/-- Permutations have permuted non-empty identity lists. -/
theorem storedIds_perm {a b : List StoredMessage} (h : a.Perm b) :
    (storedIds a).Perm (storedIds b) :=
  (h.map _).filter _

/-- Mapping an incoming batch to stored form keeps its identities. -/
theorem storedIds_map_mapIncoming (now : Nat) (userId : String)
    (l : List ChatMessage) :
    storedIds (l.map (mapIncoming now userId)) = chatIds l := by
  unfold storedIds chatIds
  rw [List.map_map]
  rfl

/-- C1 fails as stated: a batch repeating one non-empty identity is merged
with both copies kept (deduplication only checks the current list), so the
result does not have unique non-empty identities. -/
theorem handleRealtimeMessages_counterexample :
    ¬ ((storedIds (handleRealtimeMessages 0 "u" [] [c1Dup, c1Dup])).Nodup) := by
  decide

/-- C1 (amended): assuming the current list is sorted with unique non-empty
identities and the batch's non-empty identities are pairwise distinct, the
merge result is sorted ascending by creation time with unique non-empty
identities, and equals (up to the sort's reordering) the current list plus
exactly those mapped incoming messages whose identity is empty or not yet
present — so a message is dropped exactly when it carries a non-empty
identity already present, and identity-less messages are never dropped. -/
theorem handleRealtimeMessages_merge (now : Nat) (userId : String)
    (prev : List StoredMessage) (incoming : List ChatMessage)
    (hsorted : List.Sorted storedCreatedLe prev)
    (hprev : (storedIds prev).Nodup)
    (hinc : (chatIds incoming).Nodup) :
    List.Sorted storedCreatedLe (handleRealtimeMessages now userId prev incoming) ∧
    (storedIds (handleRealtimeMessages now userId prev incoming)).Nodup ∧
    (handleRealtimeMessages now userId prev incoming).Perm
      (prev ++ (incoming.map (mapIncoming now userId)).filter
        (dedupKeep (storedIds prev))) := by
  by_cases h0 : incoming = []
  · subst h0
    have hres : handleRealtimeMessages now userId prev [] = prev := rfl
    rw [hres]
    exact ⟨hsorted, hprev, by simp⟩
  · by_cases h1 : (incoming.map (mapIncoming now userId)).filter
        (dedupKeep (storedIds prev)) = []
    · have hres : handleRealtimeMessages now userId prev incoming = prev := by
        simp [handleRealtimeMessages, h0, h1]
      rw [hres, h1]
      exact ⟨hsorted, hprev, by simp⟩
    · have hres : handleRealtimeMessages now userId prev incoming =
          List.insertionSort storedCreatedLe
            (prev ++ (incoming.map (mapIncoming now userId)).filter
              (dedupKeep (storedIds prev))) := by
        simp [handleRealtimeMessages, h0, h1]
      rw [hres]
      have hperm := List.perm_insertionSort storedCreatedLe
        (prev ++ (incoming.map (mapIncoming now userId)).filter
          (dedupKeep (storedIds prev)))
      have hnodupDed : (storedIds ((incoming.map (mapIncoming now userId)).filter
          (dedupKeep (storedIds prev)))).Nodup := by
        have hsub := storedIds_sublist
          (List.filter_sublist (l := incoming.map (mapIncoming now userId))
            (p := dedupKeep (storedIds prev)))
        apply hsub.nodup
        rw [storedIds_map_mapIncoming]
        exact hinc
      have hdisj : (storedIds prev).Disjoint
          (storedIds ((incoming.map (mapIncoming now userId)).filter
            (dedupKeep (storedIds prev)))) := by
        intro a ha hb
        obtain ⟨ha2, hpa⟩ := List.mem_filter.mp hb
        obtain ⟨m, hm, rfl⟩ := List.mem_map.mp ha2
        obtain ⟨hmm, hpm⟩ := List.mem_filter.mp hm
        have hne : m.id ≠ "" := by simpa using hpa
        have hncont : (storedIds prev).contains m.id = false := by
          simpa [dedupKeep, hne] using hpm
        have hcont : (storedIds prev).contains m.id = true :=
          List.elem_iff.mpr ha
        rw [hncont] at hcont
        exact Bool.noConfusion hcont
      have hnodup : (storedIds (prev ++ (incoming.map (mapIncoming now userId)).filter
          (dedupKeep (storedIds prev)))).Nodup := by
        rw [storedIds_append]
        exact hprev.append hnodupDed hdisj
      exact ⟨List.sorted_insertionSort _ _,
        ((storedIds_perm hperm).nodup_iff).mpr hnodup,
        hperm⟩

/-- Witness for C1's amended merge property at a concrete one-message list
and one fresh incoming message. -/
theorem handleRealtimeMessages_merge_witness :
    List.Sorted storedCreatedLe (handleRealtimeMessages 0 "u" [c1Prev] [c1New]) ∧
    (storedIds (handleRealtimeMessages 0 "u" [c1Prev] [c1New])).Nodup ∧
    (handleRealtimeMessages 0 "u" [c1Prev] [c1New]).Perm
      ([c1Prev] ++ ([c1New].map (mapIncoming 0 "u")).filter
        (dedupKeep (storedIds [c1Prev]))) :=
  handleRealtimeMessages_merge 0 "u" [c1Prev] [c1New]
    (by decide) (by decide) (by decide)

/-- C6: merging a batch in which every message carries a non-empty identity
already present in the current list returns the current list unchanged. -/
theorem handleRealtimeMessages_idempotent (now : Nat) (userId : String)
    (prev : List StoredMessage) (incoming : List ChatMessage)
    (h : ∀ c ∈ incoming, c.id ≠ "" ∧ c.id ∈ prev.map (fun m => m.id)) :
    handleRealtimeMessages now userId prev incoming = prev := by
  by_cases h0 : incoming = []
  · simp [handleRealtimeMessages, h0]
  · have hded : (incoming.map (mapIncoming now userId)).filter
        (dedupKeep (storedIds prev)) = [] := by
      rw [List.filter_eq_nil_iff]
      intro m hm
      obtain ⟨c, hc, rfl⟩ := List.mem_map.mp hm
      obtain ⟨hne, hmem⟩ := h c hc
      have hidc : (mapIncoming now userId c).id = c.id := rfl
      have hmemIds : c.id ∈ storedIds prev :=
        List.mem_filter.mpr ⟨hmem, by simp [hne]⟩
      have hcont : (storedIds prev).contains c.id = true :=
        List.elem_iff.mpr hmemIds
      simp [dedupKeep, hidc, hne, hcont, hmemIds]
    simp [handleRealtimeMessages, h0, hded]

/-- Witness for C6: re-merging one already-present identity is a no-op. -/
theorem handleRealtimeMessages_idempotent_witness :
    handleRealtimeMessages 0 "u" [c6Stored] [c6Incoming] = [c6Stored] :=
  handleRealtimeMessages_idempotent 0 "u" [c6Stored] [c6Incoming] (by decide)

/-! ### Claim about the workflow-run poller -/

/-- C9: when the selected run (current while a request is in flight, else
previous) carries a tool-call mapping, the displayed history becomes the
mapping's values sorted ascending by creation timestamp, independently of
what was displayed before (wholesale replacement). -/
theorem pollWorkflowRuns_replaces_wholesale (isLoading : Bool)
    (data : WorkflowRunsData) (run : WorkflowRun)
    (tc : List (String × ToolCall)) (history : List ToolCall)
    (hrun : (if isLoading then data.current else data.previous) = some run)
    (htc : run.toolCalls = some tc) :
    List.Sorted toolCallLe (pollWorkflowRuns isLoading (some data) history) ∧
    (pollWorkflowRuns isLoading (some data) history).Perm
      (tc.map (fun p => p.2)) ∧
    (∀ history', pollWorkflowRuns isLoading (some data) history' =
      pollWorkflowRuns isLoading (some data) history) := by
  have hval : ∀ h' : List ToolCall, pollWorkflowRuns isLoading (some data) h' =
      List.insertionSort toolCallLe (tc.map (fun p => p.2)) := by
    intro h'
    have hid : (fun call : ToolCall =>
        ({ toolName := call.toolName
           displayTitle := call.displayTitle
           displayDescription := call.displayDescription
           arguments := call.arguments
           result := call.result
           status := call.status
           error := call.error
           duration := call.duration
           createdAt := call.createdAt
           updatedAt := call.updatedAt } : ToolCall)) = fun call => call := rfl
    simp [pollWorkflowRuns, hrun, htc, hid]
    rfl
  refine ⟨?_, ?_, fun h' => (hval h').trans (hval history).symm⟩
  · rw [hval history]
    exact List.sorted_insertionSort toolCallLe _
  · rw [hval history]
    exact List.perm_insertionSort toolCallLe _

/-- Witness for C9 at a concrete in-flight poll with two tool calls. -/
theorem pollWorkflowRuns_replaces_wholesale_witness :
    List.Sorted toolCallLe (pollWorkflowRuns true (some c9Data) [c9Old]) ∧
    (pollWorkflowRuns true (some c9Data) [c9Old]).Perm
      ([("k1", c9Call1), ("k2", c9Call2)].map (fun p => p.2)) ∧
    (∀ history', pollWorkflowRuns true (some c9Data) history' =
      pollWorkflowRuns true (some c9Data) [c9Old]) :=
  pollWorkflowRuns_replaces_wholesale true c9Data c9Run
    [("k1", c9Call1), ("k2", c9Call2)] [c9Old] rfl rfl

/-! ### Claim about the submit guard -/

/-- C10: when the input is blank after trimming or a send is already in
flight, the submit operation changes no state and issues no request. -/
theorem handleSubmit_guard_noop (now : Nat) (userId : String)
    (calls : SubmitCalls) (s : ChatPanelState)
    (h : jsTrim s.input = "" ∨ s.isLoading = true) :
    handleSubmit now userId calls s = (s, []) := by
  unfold handleSubmit
  rcases h with h | h <;> simp [h]

/-- Witness for C10 at a concrete whitespace-only input. -/
theorem handleSubmit_guard_noop_witness :
    handleSubmit 0 "u" c10Calls c10State = (c10State, []) :=
  handleSubmit_guard_noop 0 "u" c10Calls c10State (Or.inl (by decide))

end Micromanager
